import Mathlib

/-
Shallow embedding of the semantic checker of the apla-lang source-to-source
compiler (src/checker/checker.rs), together with the surrounding data model
(src/parser/node.rs, src/util/position.rs).

Modelling conventions:
  * Rust `Arc<Mutex<VariableSymbol>>` (and the function/class analogues) are
    modelled as indices (`Nat`) into three heaps stored in `CheckerState`
    (`vars`, `funs`, `classes`); a mutation through any alias is a heap update,
    so every holder of the index observes it, exactly as with `Arc<Mutex<_>>`.
  * Rust `panic!`/`todo!` calls abort the whole run; they are modelled as
    `Except.error` values of the `CheckError` enumeration, one constructor per
    distinct panic site.
  * The mutually recursive node checkers are given a fuel parameter to make
    the general recursion structural; fuel exhaustion is the artificial
    `CheckError.outOfFuel`.  All theorems are stated so that fuel is either
    universally quantified or fixed by a hypothesis on a sub-run.
  * Vector indexing such as `lhs_ast[0]` (which panics when out of bounds) is
    modelled by matching on the list, with `CheckError.invalidState` for the
    impossible empty case; likewise `Option::unwrap`.
-/

namespace Apla

/-- Source position (util/position.rs `Position`). -/
structure Position where
  index : Nat
  column : Nat
  column_index : Nat
  line : Nat
deriving Repr, DecidableEq

/-- A positioned payload (util/position.rs `Positioned<T>`); the Rust field
`end` is spelled `stop` because `end` is a Lean keyword. -/
structure Positioned (α : Type) where
  start : Position
  stop : Position
  data : α
deriving Repr, DecidableEq

/-- `Positioned::convert`: keep the span, replace the payload. -/
def Positioned.convert {α β : Type} (p : Positioned α) (data : β) : Positioned β :=
  { start := p.start, stop := p.stop, data := data }

/-- checker.rs `DataType`. -/
inductive DataType where
  | Void
  | CDecimal
  | CString
  | Custom (name : String)
deriving Repr, DecidableEq

/-- One constructor per distinct `panic!`/`todo!` site of the checker, plus
the two modelling artifacts `invalidState` (impossible unwrap/indexing) and
`outOfFuel`. -/
inductive CheckError where
  | typeMismatch (found expected : DataType)
  | typeMismatchVariable
  | nonVariableInference
  | uninferable
  | cannotInfer
  | variableNotFound (name : String)
  | thisOutsideClass
  | cannotAssignToFunction
  | cannotAssignToConstant
  | cannotAssignToClass
  | accessInFunction
  | classNotFound
  | couldNotInferVariableType
  | nothingToAccess
  | unsupportedOperator
  | duplicateVariable
  | unexpectedDataTypeForValue
  | cannotInferVariableDefinition
  | duplicateFunction
  | functionInsideFunction
  | unexpectedReturn
  | notEnoughParams
  | tooManyParams
  | functionNotFound (name : String)
  | symbolExists
  | unexpectedNodeInClass
  | displayCString
  | invalidState
  | outOfFuel
deriving Repr, DecidableEq

/-- `impl Display for DataType`: note that the `CString` arm is a `todo!`
panic in the source, modelled as an error. -/
def dataTypeDisplay : DataType → Except CheckError String
  | DataType.Void => Except.ok "void"
  | DataType.CDecimal => Except.ok "int"
  | DataType.CString => Except.error CheckError.displayCString
  | DataType.Custom custom => Except.ok custom

/-- node.rs `VarType`. -/
inductive VarType where
  | Constant
  | Variable
deriving Repr, DecidableEq

/-- node.rs `Operator`. -/
inductive Operator where
  | Plus
  | Minus
  | Multiply
  | Divide
  | MemberAccess
  | Assignment
deriving Repr, DecidableEq

/-- node.rs `ValueNode`. -/
inductive ValueNode where
  | Decimal (value : String)
  | String (value : String)
  | VariableCall (name : String)
  | This
deriving Repr, DecidableEq

/-- node.rs `FunctionDefinitionParameter`. -/
structure FunctionDefinitionParameter where
  name : Positioned String
  data_type : Positioned String
deriving Repr, DecidableEq

/-- node.rs `FunctionCallParameter`, parametric in the node type so it can be
nested inside the `Node` inductive. -/
structure FunctionCallParam (N : Type) where
  value : Positioned N
deriving Repr, DecidableEq

/-- node.rs `Node`. -/
inductive Node where
  | Value (value : ValueNode)
  | BinaryOperation (lhs : Positioned Node) (op : Positioned Operator) (rhs : Positioned Node)
  | VariableDefinition (var_type : Positioned VarType) (name : Positioned String)
      (data_type : Option (Positioned String)) (value : Option (Positioned Node))
  | FunctionDefinition (name : Positioned String) (return_type : Option (Positioned String))
      (params : List FunctionDefinitionParameter) (body : Option (List (Positioned Node)))
      (is_constructor : Bool)
  | Return (value : Positioned Node)
  | FunctionCall (name : Positioned String) (params : List (FunctionCallParam Node))
  | Include (path : Positioned String)
  | ClassDefinition (name : Positioned String) (body : List (Positioned Node))

/-- The whitelist of numeric-primitive aliases accepted against `CDecimal`
(checker.rs `check_data_type`, both match blocks). -/
def isNumericAlias (inner : String) : Bool :=
  inner == "c_char" || inner == "c_short" || inner == "c_int" ||
  inner == "c_long" || inner == "c_float" || inner == "c_double"

/-- One orientation of the alias acceptance used by `check_data_type`: the
first argument plays the role matched on (`CDecimal` / `CString`), the second
is inspected as a `Custom` alias.  The source contains this logic twice, once
with `expected` matched first and once with `found` matched first. -/
def aliasAccept : DataType → DataType → Bool
  | DataType.CDecimal, DataType.Custom inner => isNumericAlias inner
  | DataType.CString, DataType.Custom inner => inner == "c_string"
  | _, _ => false

/-- checker.rs `Checker::check_data_type` (it never touches `self`): equal
types are accepted, then the `expected`-first match, then the `found`-first
match. -/
def check_data_type (expected found : DataType) : Bool :=
  if expected = found then true
  else if aliasAccept expected found then true
  else aliasAccept found expected

/-- checker.rs `VariableSymbol`. -/
structure VariableSymbol where
  var_type : VarType
  name : String
  data_type : Option DataType
  initialized : Bool
deriving Repr, DecidableEq

/-- checker.rs `FunctionType`. -/
inductive FunctionType where
  | ExternalFunction
  | Constructor
  | Function
deriving Repr, DecidableEq

/-- checker.rs `FunctionSymbol`. -/
structure FunctionSymbol where
  name : String
  data_type : DataType
  function_type : FunctionType
  params : List FunctionDefinitionParameter
deriving Repr, DecidableEq

/-- checker.rs `ClassSymbol`; the field and method lists hold heap indices in
declaration order (the Rust lists hold `Arc<Mutex<_>>` references). -/
structure ClassSymbol where
  name : String
  fields : List Nat
  functions : List Nat
deriving Repr, DecidableEq

/-- checker.rs `Symbol`: a reference (heap index) to one of the three symbol
kinds. -/
inductive Symbol where
  | Function (idx : Nat)
  | Variable (idx : Nat)
  | Class (idx : Nat)
deriving Repr, DecidableEq

/-- checker.rs `ScopeType`. -/
inductive ScopeType where
  | Root
  | Function (name : String) (data_type : DataType)
  | Class (name : String)
deriving Repr, DecidableEq

/-- checker.rs `Scope`: kind, optional parent chain, the three local symbol
tables (heap indices, declaration order), and the transient override
(`selected`). -/
inductive Scope where
  | mk (scope : ScopeType) (parent : Option Scope)
       (varIds : List Nat) (funIds : List Nat) (classIds : List Nat)
       (selected : Option Scope)

/-- The `scope` (kind) field. -/
def Scope.scope : Scope → ScopeType
  | Scope.mk t _ _ _ _ _ => t

/-- The `parent` field. -/
def Scope.parent : Scope → Option Scope
  | Scope.mk _ p _ _ _ _ => p

/-- The `variables` table. -/
def Scope.varIds : Scope → List Nat
  | Scope.mk _ _ vs _ _ _ => vs

/-- The `functions` table. -/
def Scope.funIds : Scope → List Nat
  | Scope.mk _ _ _ fs _ _ => fs

/-- The `classes` table. -/
def Scope.classIds : Scope → List Nat
  | Scope.mk _ _ _ _ cs _ => cs

/-- The `selected` override field. -/
def Scope.selected : Scope → Option Scope
  | Scope.mk _ _ _ _ _ sel => sel

/-- Replace the `selected` override field. -/
def Scope.withSelected : Scope → Option Scope → Scope
  | Scope.mk t p vs fs cs _, sel => Scope.mk t p vs fs cs sel

/-- `self.scope.variables.push(..)`. -/
def Scope.pushVariable : Scope → Nat → Scope
  | Scope.mk t p vs fs cs sel, i => Scope.mk t p (vs ++ [i]) fs cs sel

/-- `self.scope.functions.push(..)`. -/
def Scope.pushFunction : Scope → Nat → Scope
  | Scope.mk t p vs fs cs sel, i => Scope.mk t p vs (fs ++ [i]) cs sel

/-- `self.scope.classes.push(..)`. -/
def Scope.pushClass : Scope → Nat → Scope
  | Scope.mk t p vs fs cs sel, i => Scope.mk t p vs fs (cs ++ [i]) sel

/-- Does heap index `i` name a variable called `name`? -/
def varNamed (vars : List VariableSymbol) (name : String) (i : Nat) : Bool :=
  match vars.get? i with
  | some v => v.name == name
  | none => false

/-- Does heap index `i` name a function called `name`? -/
def funNamed (funs : List FunctionSymbol) (name : String) (i : Nat) : Bool :=
  match funs.get? i with
  | some f => f.name == name
  | none => false

/-- Does heap index `i` name a class called `name`? -/
def classNamed (classes : List ClassSymbol) (name : String) (i : Nat) : Bool :=
  match classes.get? i with
  | some c => c.name == name
  | none => false

/-- checker.rs `Scope::get_variable`.  If an override is active the lookup is
delegated entirely to it and the override is cleared (hit or miss); otherwise
the local table is scanned and then the parent chain.  The lookup mutates the
scope (clearing overrides), so the updated scope is returned alongside the
result. -/
def Scope.get_variable (vars : List VariableSymbol) : Scope → String → Option Nat × Scope
  | Scope.mk t p vs fs cs (some sel), name =>
      let r := Scope.get_variable vars sel name
      (r.1, Scope.mk t p vs fs cs none)
  | Scope.mk t p vs fs cs none, name =>
      match vs.find? (varNamed vars name) with
      | some i => (some i, Scope.mk t p vs fs cs none)
      | none =>
          match p with
          | some par =>
              let r := Scope.get_variable vars par name
              (r.1, Scope.mk t (some r.2) vs fs cs none)
          | none => (none, Scope.mk t none vs fs cs none)

/-- checker.rs `Scope::get_function` (same shape as `get_variable`). -/
def Scope.get_function (funs : List FunctionSymbol) : Scope → String → Option Nat × Scope
  | Scope.mk t p vs fs cs (some sel), name =>
      let r := Scope.get_function funs sel name
      (r.1, Scope.mk t p vs fs cs none)
  | Scope.mk t p vs fs cs none, name =>
      match fs.find? (funNamed funs name) with
      | some i => (some i, Scope.mk t p vs fs cs none)
      | none =>
          match p with
          | some par =>
              let r := Scope.get_function funs par name
              (r.1, Scope.mk t (some r.2) vs fs cs none)
          | none => (none, Scope.mk t none vs fs cs none)

/-- checker.rs `Scope::get_class` (same shape as `get_variable`). -/
def Scope.get_class (classes : List ClassSymbol) : Scope → String → Option Nat × Scope
  | Scope.mk t p vs fs cs (some sel), name =>
      let r := Scope.get_class classes sel name
      (r.1, Scope.mk t p vs fs cs none)
  | Scope.mk t p vs fs cs none, name =>
      match cs.find? (classNamed classes name) with
      | some i => (some i, Scope.mk t p vs fs cs none)
      | none =>
          match p with
          | some par =>
              let r := Scope.get_class classes par name
              (r.1, Scope.mk t (some r.2) vs fs cs none)
          | none => (none, Scope.mk t none vs fs cs none)

/-- checker.rs `Scope::symbol_exists`: the three lookups in order with
short-circuiting; each lookup may clear overrides, so the scope is threaded
through. -/
def Scope.symbol_exists (vars : List VariableSymbol) (funs : List FunctionSymbol)
    (classes : List ClassSymbol) (s : Scope) (name : String) : Bool × Scope :=
  let rv := s.get_variable vars name
  if rv.1.isSome then (true, rv.2)
  else
    let rf := rv.2.get_function funs name
    if rf.1.isSome then (true, rf.2)
    else
      let rc := rf.2.get_class classes name
      (rc.1.isSome, rc.2)

/-- checker.rs `NodeInfo`. -/
structure NodeInfo where
  data_type : Option DataType
  symbol : Option Symbol
deriving Repr, DecidableEq

/-- The mutable state of `Checker`: the three symbol heaps (standing for the
`Arc<Mutex<_>>` records), the current scope, and the include side-list. -/
structure CheckerState where
  vars : List VariableSymbol
  funs : List FunctionSymbol
  classes : List ClassSymbol
  scope : Scope
  includes : List (Positioned Unit × Positioned String)

/-- Result of a node checker: `(NodeInfo, rewritten nodes)` plus the threaded
state, or the first error (panic). -/
abbrev NRes := Except CheckError ((NodeInfo × List (Positioned Node)) × CheckerState)

/-- Is an `Except` an `ok`? -/
def exceptOk {ε α : Type} : Except ε α → Bool
  | Except.ok _ => true
  | Except.error _ => false

/-- checker.rs `Checker::infer_and_check`: a concrete type on the expression
is validated against `other` (returning `other`); otherwise a bound variable
symbol is consulted, validating its type when set and assigning `other` to it
when unset. -/
def infer_and_check (node_info : NodeInfo) (other : DataType) (st : CheckerState) :
    Except CheckError (DataType × CheckerState) :=
  match node_info.data_type with
  | some data_type =>
      if check_data_type other data_type then Except.ok (other, st)
      else Except.error (CheckError.typeMismatch data_type other)
  | none =>
      match node_info.symbol with
      | some (Symbol.Variable vi) =>
          match st.vars.get? vi with
          | some v =>
              match v.data_type with
              | some data_type =>
                  if check_data_type other data_type then Except.ok (other, st)
                  else Except.error CheckError.typeMismatchVariable
              | none =>
                  Except.ok (other,
                    { st with vars := st.vars.set vi { v with data_type := some other } })
          | none => Except.error CheckError.invalidState
      | some _ => Except.error CheckError.nonVariableInference
      | none => Except.error CheckError.uninferable

/-- checker.rs `Checker::infer_and_check2`: one-sided delegation, `other`
side first. -/
def infer_and_check2 (node_info other : NodeInfo) (st : CheckerState) :
    Except CheckError (DataType × CheckerState) :=
  match other.data_type with
  | some data_type => infer_and_check node_info data_type st
  | none =>
      match node_info.data_type with
      | some data_type => infer_and_check other data_type st
      | none => Except.error CheckError.cannotInfer

/-- checker.rs `Checker::check_value`.  Literals carry their type and no
symbol; a `VariableCall` is looked up first among variables and, on a miss,
among classes (note that the first lookup already consumes an active
override); `This` looks up the pre-bound "self" variable. -/
def check_value (value_node : Positioned ValueNode) (st : CheckerState) : NRes :=
  match value_node.data with
  | ValueNode.Decimal _ =>
      Except.ok ((NodeInfo.mk (some DataType.CDecimal) none,
        [value_node.convert (Node.Value value_node.data)]), st)
  | ValueNode.String _ =>
      Except.ok ((NodeInfo.mk (some DataType.CString) none,
        [value_node.convert (Node.Value value_node.data)]), st)
  | ValueNode.VariableCall value =>
      let rv := st.scope.get_variable st.vars value
      let st1 := { st with scope := rv.2 }
      match rv.1 with
      | some vi =>
          match st1.vars.get? vi with
          | some vsym =>
              Except.ok ((NodeInfo.mk vsym.data_type (some (Symbol.Variable vi)),
                [value_node.convert (Node.Value (ValueNode.VariableCall value))]), st1)
          | none => Except.error CheckError.invalidState
      | none =>
          let rc := st1.scope.get_class st1.classes value
          let st2 := { st1 with scope := rc.2 }
          match rc.1 with
          | some ci =>
              Except.ok ((NodeInfo.mk (some (DataType.Custom value)) (some (Symbol.Class ci)),
                [value_node.convert (Node.Value (ValueNode.VariableCall value))]), st2)
          | none => Except.error (CheckError.variableNotFound value)
  | ValueNode.This =>
      let rv := st.scope.get_variable st.vars "self"
      let st1 := { st with scope := rv.2 }
      match rv.1 with
      | some vi =>
          match st1.vars.get? vi with
          | some vsym =>
              Except.ok ((NodeInfo.mk vsym.data_type (some (Symbol.Variable vi)),
                [value_node.convert (Node.Value ValueNode.This)]), st1)
          | none => Except.error CheckError.invalidState
      | none => Except.error CheckError.thisOutsideClass

/-- checker.rs `Checker::check_include`: record the directive in the ordered
side-list and emit no node (post-processed by the driver). -/
def check_include (position : Positioned Unit) (path : Positioned String)
    (st : CheckerState) : NRes :=
  Except.ok ((NodeInfo.mk (some DataType.Void) none, []),
    { st with includes := st.includes ++ [(position, path)] })

/-- Tail of `Checker::check_variable_definition` once the final data type is
known: register the `VariableSymbol` in the current scope and emit the
rewritten declaration (whose type field is rendered through the `Display`
implementation, and whose value is the original, unrewritten initializer). -/
def finish_variable_definition (position : Positioned Unit) (var_type : Positioned VarType)
    (name : Positioned String) (value : Option (Positioned Node))
    (final_data_type : Option DataType) (st : CheckerState) : NRes :=
  let idx := st.vars.length
  let st1 := { st with
    vars := st.vars ++ [VariableSymbol.mk var_type.data name.data final_data_type value.isSome],
    scope := st.scope.pushVariable idx }
  match final_data_type with
  | some dt =>
      match dataTypeDisplay dt with
      | Except.error e => Except.error e
      | Except.ok s =>
          Except.ok ((NodeInfo.mk (some DataType.Void) none,
            [position.convert (Node.VariableDefinition var_type name
              (some (position.convert s)) value)]), st1)
  | none =>
      Except.ok ((NodeInfo.mk (some DataType.Void) none,
        [position.convert (Node.VariableDefinition var_type name none value)]), st1)

/-- The parameter-installation loop of `Checker::check_function_definition`:
one constant, pre-initialized, typed variable per declared parameter. -/
def pushParams : List FunctionDefinitionParameter → CheckerState → CheckerState
  | [], st => st
  | param :: rest, st =>
      let idx := st.vars.length
      pushParams rest { st with
        vars := st.vars ++ [VariableSymbol.mk VarType.Constant param.name.data
          (some (DataType.Custom param.data_type.data)) true],
        scope := st.scope.pushVariable idx }

/-- Tail of `Checker::check_function_definition`: emit the rewritten node
with the return type spelled out through `Display`. -/
def finish_function_definition (position : Positioned Unit) (name : Positioned String)
    (data_type : DataType) (params : List FunctionDefinitionParameter)
    (new_body : Option (List (Positioned Node))) (is_constructor : Bool)
    (st : CheckerState) : NRes :=
  match dataTypeDisplay data_type with
  | Except.error e => Except.error e
  | Except.ok s =>
      Except.ok ((NodeInfo.mk (some DataType.Void) none,
        [position.convert (Node.FunctionDefinition name (some (position.convert s))
          params new_body is_constructor)]), st)

mutual

/-- checker.rs `Checker::check_node`: dispatch on the node kind. -/
def check_node : Nat → Positioned Node → CheckerState → NRes
  | 0, _, _ => Except.error CheckError.outOfFuel
  | fuel+1, node, st =>
      match node.data with
      | Node.Value value => check_value (node.convert value) st
      | Node.BinaryOperation lhs op rhs =>
          check_binary_operation fuel (node.convert ()) lhs op rhs st
      | Node.VariableDefinition var_type name data_type value =>
          check_variable_definition fuel (node.convert ()) var_type name data_type value st
      | Node.FunctionDefinition name return_type params body is_constructor =>
          check_function_definition fuel (node.convert ()) name return_type params body
            is_constructor st
      | Node.Return value => check_return fuel (node.convert ()) value st
      | Node.FunctionCall name params => check_function_call fuel (node.convert ()) name params st
      | Node.Include path => check_include (node.convert ()) path st
      | Node.ClassDefinition name body => check_class_definition fuel (node.convert ()) name body st

/-- checker.rs `Checker::check_binary_operation`: the four arithmetic
operators are `todo!` panics in the source. -/
def check_binary_operation : Nat → Positioned Unit → Positioned Node → Positioned Operator →
    Positioned Node → CheckerState → NRes
  | 0, _, _, _, _, _ => Except.error CheckError.outOfFuel
  | fuel+1, position, lhs, op, rhs, st =>
      match op.data with
      | Operator.Plus => Except.error CheckError.unsupportedOperator
      | Operator.Minus => Except.error CheckError.unsupportedOperator
      | Operator.Multiply => Except.error CheckError.unsupportedOperator
      | Operator.Divide => Except.error CheckError.unsupportedOperator
      | Operator.MemberAccess => check_member_access fuel position lhs op rhs st
      | Operator.Assignment => check_assignment fuel position lhs op rhs st

/-- checker.rs `Checker::check_assignment`: check both sides, validate the
assignment target when the lhs carries a symbol (rejecting functions,
classes, and initialized constants; marking the variable initialized), then
unify the two sides. -/
def check_assignment : Nat → Positioned Unit → Positioned Node → Positioned Operator →
    Positioned Node → CheckerState → NRes
  | 0, _, _, _, _, _ => Except.error CheckError.outOfFuel
  | fuel+1, position, lhs, op, rhs, st =>
      match check_node fuel lhs st with
      | Except.error e => Except.error e
      | Except.ok ((lhs_info, lhs_ast), st1) =>
          match check_node fuel rhs st1 with
          | Except.error e => Except.error e
          | Except.ok ((rhs_info, rhs_ast), st2) =>
              let target : Except CheckError CheckerState :=
                match lhs_info.symbol with
                | some (Symbol.Function _) => Except.error CheckError.cannotAssignToFunction
                | some (Symbol.Variable vi) =>
                    match st2.vars.get? vi with
                    | some v =>
                        if v.var_type = VarType.Constant ∧ v.initialized then
                          Except.error CheckError.cannotAssignToConstant
                        else
                          Except.ok { st2 with
                            vars := st2.vars.set vi { v with initialized := true } }
                    | none => Except.error CheckError.invalidState
                | some (Symbol.Class _) => Except.error CheckError.cannotAssignToClass
                | none => Except.ok st2
              match target with
              | Except.error e => Except.error e
              | Except.ok st3 =>
                  match infer_and_check2 lhs_info rhs_info st3 with
                  | Except.error e => Except.error e
                  | Except.ok (data_type, st4) =>
                      match lhs_ast, rhs_ast with
                      | l :: _, r :: _ =>
                          Except.ok ((NodeInfo.mk (some data_type) none,
                            [position.convert (Node.BinaryOperation l op r)]), st4)
                      | _, _ => Except.error CheckError.invalidState

/-- checker.rs `Checker::check_member_access`: resolve the lhs, require a
class (directly, or through a variable of named class type), build the
parentless synthetic scope holding that class's current fields and methods,
install it as the override, then check the rhs under it. -/
def check_member_access : Nat → Positioned Unit → Positioned Node → Positioned Operator →
    Positioned Node → CheckerState → NRes
  | 0, _, _, _, _, _ => Except.error CheckError.outOfFuel
  | fuel+1, position, lhs, op, rhs, st =>
      match check_node fuel lhs st with
      | Except.error e => Except.error e
      | Except.ok ((lhs_info, lhs_ast), st1) =>
          match lhs_info.symbol with
          | none => Except.error CheckError.nothingToAccess
          | some symbol =>
              let resolved : Except CheckError (Nat × CheckerState) :=
                match symbol with
                | Symbol.Function _ => Except.error CheckError.accessInFunction
                | Symbol.Variable vi =>
                    match st1.vars.get? vi with
                    | some v =>
                        match v.data_type with
                        | some (DataType.Custom data_type) =>
                            let rc := st1.scope.get_class st1.classes data_type
                            match rc.1 with
                            | some ci => Except.ok (ci, { st1 with scope := rc.2 })
                            | none => Except.error CheckError.classNotFound
                        | _ => Except.error CheckError.couldNotInferVariableType
                    | none => Except.error CheckError.invalidState
                | Symbol.Class ci => Except.ok (ci, st1)
              match resolved with
              | Except.error e => Except.error e
              | Except.ok (ci, st2) =>
                  match st2.classes.get? ci with
                  | none => Except.error CheckError.invalidState
                  | some class_symbol =>
                      let sel := Scope.mk (ScopeType.Class class_symbol.name) none
                        class_symbol.fields class_symbol.functions [] none
                      let st3 := { st2 with scope := st2.scope.withSelected (some sel) }
                      match check_node fuel rhs st3 with
                      | Except.error e => Except.error e
                      | Except.ok ((rhs_info, rhs_ast), st4) =>
                          match lhs_ast, rhs_ast with
                          | l :: _, r :: _ =>
                              Except.ok ((rhs_info,
                                [position.convert (Node.BinaryOperation l op r)]), st4)
                          | _, _ => Except.error CheckError.invalidState

/-- checker.rs `Checker::check_variable_definition`: reject when the name
already resolves as a variable in the chain; establish the final type from
the initializer and/or the annotation; register the symbol; emit the
rewritten node. -/
def check_variable_definition : Nat → Positioned Unit → Positioned VarType →
    Positioned String → Option (Positioned String) → Option (Positioned Node) →
    CheckerState → NRes
  | 0, _, _, _, _, _, _ => Except.error CheckError.outOfFuel
  | fuel+1, position, var_type, name, data_type, value, st =>
      let rv := st.scope.get_variable st.vars name.data
      let st0 := { st with scope := rv.2 }
      if rv.1.isSome then Except.error CheckError.duplicateVariable
      else
        match value with
        | some v =>
            match check_node fuel v st0 with
            | Except.error e => Except.error e
            | Except.ok ((value_info, _value_ast), st1) =>
                match data_type with
                | some dt =>
                    match value_info.data_type with
                    | some value_info_type =>
                        if check_data_type value_info_type (DataType.Custom dt.data) then
                          finish_variable_definition position var_type name value
                            (some (DataType.Custom dt.data)) st1
                        else Except.error CheckError.unexpectedDataTypeForValue
                    | none =>
                        match infer_and_check value_info (DataType.Custom dt.data) st1 with
                        | Except.error e => Except.error e
                        | Except.ok (d, st2) =>
                            finish_variable_definition position var_type name value (some d) st2
                | none =>
                    match value_info.data_type with
                    | some value_info_type =>
                        finish_variable_definition position var_type name value
                          (some value_info_type) st1
                    | none => Except.error CheckError.cannotInferVariableDefinition
        | none =>
            match data_type with
            | some dt =>
                finish_variable_definition position var_type name none
                  (some (DataType.Custom dt.data)) st0
            | none => finish_variable_definition position var_type name none none st0

/-- checker.rs `Checker::check_function_definition`: reject a duplicate
function name and a declaration nested in a function scope; register the
`FunctionSymbol` before the body is checked; check the body (if any) in a
fresh `Function` scope pre-populated with the parameters. -/
def check_function_definition : Nat → Positioned Unit → Positioned String →
    Option (Positioned String) → List FunctionDefinitionParameter →
    Option (List (Positioned Node)) → Bool → CheckerState → NRes
  | 0, _, _, _, _, _, _, _ => Except.error CheckError.outOfFuel
  | fuel+1, position, name, return_type, params, body, is_constructor, st =>
      let rf := st.scope.get_function st.funs name.data
      let st0 := { st with scope := rf.2 }
      if rf.1.isSome then Except.error CheckError.duplicateFunction
      else
        match st0.scope.scope with
        | ScopeType.Function _ _ => Except.error CheckError.functionInsideFunction
        | _ =>
          let data_type := match return_type with
            | none => DataType.Void
            | some x => DataType.Custom x.data
          let function_type := if body.isNone then FunctionType.ExternalFunction
            else if is_constructor then FunctionType.Constructor
            else FunctionType.Function
          let fidx := st0.funs.length
          let st1 := { st0 with
            funs := st0.funs ++ [FunctionSymbol.mk name.data data_type function_type params],
            scope := st0.scope.pushFunction fidx }
          match body with
          | some body_nodes =>
              let st2 := { st1 with
                scope := Scope.mk (ScopeType.Function name.data data_type)
                  (some st1.scope) [] [] [] none }
              let st3 := pushParams params st2
              match check_body fuel body_nodes st3 with
              | Except.error e => Except.error e
              | Except.ok (new_body, st4) =>
                  match st4.scope.parent with
                  | none => Except.error CheckError.invalidState
                  | some par =>
                      finish_function_definition position name data_type params
                        (some new_body) is_constructor { st4 with scope := par }
          | none =>
              finish_function_definition position name data_type params none is_constructor st1

/-- The body loop of `Checker::check_function_definition`: check each
statement in order, concatenating the rewritten nodes. -/
def check_body : Nat → List (Positioned Node) → CheckerState →
    Except CheckError (List (Positioned Node) × CheckerState)
  | 0, _, _ => Except.error CheckError.outOfFuel
  | _+1, [], st => Except.ok ([], st)
  | fuel+1, node :: rest, st =>
      match check_node fuel node st with
      | Except.error e => Except.error e
      | Except.ok ((_, node_ast), st1) =>
          match check_body fuel rest st1 with
          | Except.error e => Except.error e
          | Except.ok (tail, st2) => Except.ok (node_ast ++ tail, st2)

/-- checker.rs `Checker::check_return`: legal only when the current scope is
a `Function` scope; the returned expression is unified against the declared
return type. -/
def check_return : Nat → Positioned Unit → Positioned Node → CheckerState → NRes
  | 0, _, _, _ => Except.error CheckError.outOfFuel
  | fuel+1, position, value, st =>
      match st.scope.scope with
      | ScopeType.Function _ data_type =>
          match check_node fuel value st with
          | Except.error e => Except.error e
          | Except.ok ((value_info, value_ast), st1) =>
              match infer_and_check value_info data_type st1 with
              | Except.error e => Except.error e
              | Except.ok (_, st2) =>
                  match value_ast with
                  | v :: _ =>
                      Except.ok ((NodeInfo.mk (some DataType.Void) none,
                        [position.convert (Node.Return v)]), st2)
                  | [] => Except.error CheckError.invalidState
      | _ => Except.error CheckError.unexpectedReturn

/-- checker.rs `Checker::check_function_call`: resolve the function, check
the arguments pairwise against the declared parameters, and yield the
declared return type. -/
def check_function_call : Nat → Positioned Unit → Positioned String →
    List (FunctionCallParam Node) → CheckerState → NRes
  | 0, _, _, _, _ => Except.error CheckError.outOfFuel
  | fuel+1, position, name, params, st =>
      let rf := st.scope.get_function st.funs name.data
      let st0 := { st with scope := rf.2 }
      match rf.1 with
      | none => Except.error (CheckError.functionNotFound name.data)
      | some fi =>
          match st0.funs.get? fi with
          | none => Except.error CheckError.invalidState
          | some function =>
              match check_call_args fuel function.params params st0 with
              | Except.error e => Except.error e
              | Except.ok (new_params, st1) =>
                  Except.ok ((NodeInfo.mk (some function.data_type) none,
                    [position.convert (Node.FunctionCall name new_params)]), st1)

/-- The pairwise argument loop of `Checker::check_function_call`: iterate the
declared parameters in order against the supplied arguments by position
(running out of supplied arguments is the "not enough" panic inside the
loop); after the loop, leftover supplied arguments are the "too many"
panic. -/
def check_call_args : Nat → List FunctionDefinitionParameter →
    List (FunctionCallParam Node) → CheckerState →
    Except CheckError (List (FunctionCallParam Node) × CheckerState)
  | 0, _, _, _ => Except.error CheckError.outOfFuel
  | _+1, [], given, st =>
      if given.length > 0 then Except.error CheckError.tooManyParams
      else Except.ok ([], st)
  | fuel+1, _param :: ps, given, st =>
      match given with
      | [] => Except.error CheckError.notEnoughParams
      | g :: gs =>
          match check_node fuel g.value st with
          | Except.error e => Except.error e
          | Except.ok ((param_info, param_ast), st1) =>
              match infer_and_check param_info (DataType.Custom _param.data_type.data) st1 with
              | Except.error e => Except.error e
              | Except.ok (_, st2) =>
                  match param_ast with
                  | [] => Except.error CheckError.invalidState
                  | a :: _ =>
                      match check_call_args fuel ps gs st2 with
                      | Except.error e => Except.error e
                      | Except.ok (rest, st3) =>
                          Except.ok (FunctionCallParam.mk a :: rest, st3)

/-- checker.rs `Checker::check_class_definition`: reject a name resolvable as
any symbol kind; register the empty `ClassSymbol` immediately; enter a
`Class` scope with the pre-bound constant "self"; check the body; exit. -/
def check_class_definition : Nat → Positioned Unit → Positioned String →
    List (Positioned Node) → CheckerState → NRes
  | 0, _, _, _, _ => Except.error CheckError.outOfFuel
  | fuel+1, position, name, body, st =>
      let re := st.scope.symbol_exists st.vars st.funs st.classes name.data
      let st0 := { st with scope := re.2 }
      if re.1 then Except.error CheckError.symbolExists
      else
        let ci := st0.classes.length
        let st1 := { st0 with
          classes := st0.classes ++ [ClassSymbol.mk name.data [] []],
          scope := st0.scope.pushClass ci }
        let st2 := { st1 with
          scope := Scope.mk (ScopeType.Class name.data) (some st1.scope) [] [] [] none }
        let si := st2.vars.length
        let st3 := { st2 with
          vars := st2.vars ++ [VariableSymbol.mk VarType.Constant "self"
            (some (DataType.Custom name.data)) true],
          scope := st2.scope.pushVariable si }
        match check_class_body fuel ci body st3 with
        | Except.error e => Except.error e
        | Except.ok (new_body, st4) =>
            match st4.scope.parent with
            | none => Except.error CheckError.invalidState
            | some par =>
                Except.ok ((NodeInfo.mk (some DataType.Void) none,
                  [position.convert (Node.ClassDefinition name new_body)]),
                  { st4 with scope := par })

/-- The body loop of `Checker::check_class_definition`: each member must be a
variable or function definition; after checking one, the symbol last pushed
into the class scope is appended to the shared `ClassSymbol`'s field/method
list (through the heap, so every holder observes it). -/
def check_class_body : Nat → Nat → List (Positioned Node) → CheckerState →
    Except CheckError (List (Positioned Node) × CheckerState)
  | 0, _, _, _ => Except.error CheckError.outOfFuel
  | _+1, _, [], st => Except.ok ([], st)
  | fuel+1, ci, node :: rest, st =>
      match node.data with
      | Node.VariableDefinition _ _ _ _ =>
          match check_node fuel node st with
          | Except.error e => Except.error e
          | Except.ok ((_, node_ast), st1) =>
              match st1.scope.varIds.getLast? with
              | none => Except.error CheckError.invalidState
              | some field_idx =>
                  match st1.classes.get? ci with
                  | none => Except.error CheckError.invalidState
                  | some c =>
                      let st2 := { st1 with
                        classes := st1.classes.set ci { c with fields := c.fields ++ [field_idx] } }
                      match check_class_body fuel ci rest st2 with
                      | Except.error e => Except.error e
                      | Except.ok (tail, st3) => Except.ok (node_ast ++ tail, st3)
      | Node.FunctionDefinition _ _ _ _ _ =>
          match check_node fuel node st with
          | Except.error e => Except.error e
          | Except.ok ((_, node_ast), st1) =>
              match st1.scope.funIds.getLast? with
              | none => Except.error CheckError.invalidState
              | some fun_idx =>
                  match st1.classes.get? ci with
                  | none => Except.error CheckError.invalidState
                  | some c =>
                      let st2 := { st1 with
                        classes := st1.classes.set ci
                          { c with functions := c.functions ++ [fun_idx] } }
                      match check_class_body fuel ci rest st2 with
                      | Except.error e => Except.error e
                      | Except.ok (tail, st3) => Except.ok (node_ast ++ tail, st3)
      | _ => Except.error CheckError.unexpectedNodeInClass

end

/-- The driver loop of `Checker::check`: check each top-level node in order,
concatenating the rewritten sequences. -/
def check_all (fuel : Nat) : List (Positioned Node) → CheckerState →
    Except CheckError (List (Positioned Node) × CheckerState)
  | [], st => Except.ok ([], st)
  | node :: rest, st =>
      match check_node fuel node st with
      | Except.error e => Except.error e
      | Except.ok ((_, node_ast), st1) =>
          match check_all fuel rest st1 with
          | Except.error e => Except.error e
          | Except.ok (tail, st2) => Except.ok (node_ast ++ tail, st2)

/-- checker.rs `Checker::check`: run the driver loop, then re-emit every
collected include directive as a node, in encounter order, prepended to the
rewritten sequence. -/
def Checker.check (fuel : Nat) (ast : List (Positioned Node)) (st : CheckerState) :
    Except CheckError (List (Positioned Node) × CheckerState) :=
  match check_all fuel ast st with
  | Except.error e => Except.error e
  | Except.ok (res, st1) =>
      Except.ok ((st1.includes.map fun pp => pp.1.convert (Node.Include pp.2)) ++ res, st1)

/- Concrete fixtures used by witnesses and counterexamples. -/

/-- A fixed source position. -/
def pos0 : Position := ⟨0, 0, 0, 1⟩

/-- Attach the fixed position to a payload. -/
def p0 {α : Type} (a : α) : Positioned α := ⟨pos0, pos0, a⟩

/-- The empty root scope. -/
def rootScope : Scope := Scope.mk ScopeType.Root none [] [] [] none

/-- The initial checker state (`Checker::new`). -/
def stEmpty : CheckerState := ⟨[], [], [], rootScope, []⟩

/-- A never-initialized, untyped variable symbol named "x". -/
def varX : VariableSymbol := ⟨VarType.Variable, "x", none, false⟩

/-- A state whose root scope holds just `varX`. -/
def stVarX : CheckerState := ⟨[varX], [], [], Scope.mk ScopeType.Root none [0] [] [] none, []⟩

/-- A state whose root scope holds one function named "f". -/
def stFun : CheckerState :=
  ⟨[], [⟨"f", DataType.Void, FunctionType.Function, []⟩], [],
   Scope.mk ScopeType.Root none [] [0] [] none, []⟩

/-- A declaration of a variable named "f" (clashing with the function of
`stFun` only across symbol kinds). -/
def declF : Positioned Node :=
  p0 (Node.VariableDefinition (p0 VarType.Variable) (p0 "f") (some (p0 "c_int")) none)

/-- Heap for the member-access demo: the field "x" of class C, and a variable
"a" of type C. -/
def demoVars : List VariableSymbol :=
  [⟨VarType.Variable, "x", some DataType.CDecimal, true⟩,
   ⟨VarType.Variable, "a", some (DataType.Custom "C"), true⟩]

/-- Class heap for the member-access demo: class C with field "x", and an
unrelated empty class D declared in the enclosing scope. -/
def demoClasses : List ClassSymbol := [⟨"C", [0], []⟩, ⟨"D", [], []⟩]

/-- Root state for the member-access demo: variable "a" and classes C, D
visible. -/
def demoSt : CheckerState :=
  ⟨demoVars, [], demoClasses, Scope.mk ScopeType.Root none [1] [] [0, 1] none, []⟩

/-- The synthetic member scope `check_member_access` builds for class C of
`demoSt` (its fields and methods, no parent). -/
def synthC : Scope := Scope.mk (ScopeType.Class "C") none [0] [] [] none

/-- The demo state at the instant `check_member_access` has installed the
synthetic scope for class C as the override. -/
def demoStSel : CheckerState :=
  ⟨demoVars, [], demoClasses, Scope.mk ScopeType.Root none [1] [] [0, 1] (some synthC), []⟩

/-- The member access `a.D`, whose rhs names no member of C but does name the
enclosing-scope class D. -/
def accessNode : Positioned Node :=
  p0 (Node.BinaryOperation (p0 (Node.Value (ValueNode.VariableCall "a")))
    (p0 Operator.MemberAccess) (p0 (Node.Value (ValueNode.VariableCall "D"))))

/-- A variable declaration with neither an initializer nor a type
annotation. -/
def declX : Positioned Node :=
  p0 (Node.VariableDefinition (p0 VarType.Variable) (p0 "x") none none)

/-- No element of the list is an include directive. -/
def noInclude (l : List (Positioned Node)) : Prop :=
  ∀ q ∈ l, ∀ s, q.data ≠ Node.Include s

/-- Statement `A` of the spec's hoisting example: `var a: c_int`. -/
def nodeA : Positioned Node :=
  p0 (Node.VariableDefinition (p0 VarType.Variable) (p0 "a") (some (p0 "c_int")) none)

/-- Statement `B` of the spec's hoisting example: `var b: c_int`. -/
def nodeB : Positioned Node :=
  p0 (Node.VariableDefinition (p0 VarType.Variable) (p0 "b") (some (p0 "c_int")) none)

/-- The directive `include "x"`. -/
def incX : Positioned Node := p0 (Node.Include (p0 "x"))

/-- The directive `include "y"`. -/
def incY : Positioned Node := p0 (Node.Include (p0 "y"))

/-- The final state after checking `[A; include "x"; B; include "y"]` from
the empty state: both variables registered, both includes collected in
encounter order. -/
def stHoist : CheckerState :=
  ⟨[⟨VarType.Variable, "a", some (DataType.Custom "c_int"), false⟩,
    ⟨VarType.Variable, "b", some (DataType.Custom "c_int"), false⟩], [], [],
   Scope.mk ScopeType.Root none [0, 1] [] [] none,
   [(p0 (), p0 "x"), (p0 (), p0 "y")]⟩

/-- The hoisted output of the spec's example. -/
def hoistOut : List (Positioned Node) :=
  [p0 (Node.Include (p0 "x")), p0 (Node.Include (p0 "y")),
   p0 (Node.VariableDefinition (p0 VarType.Variable) (p0 "a") (some (p0 "c_int")) none),
   p0 (Node.VariableDefinition (p0 VarType.Variable) (p0 "b") (some (p0 "c_int")) none)]

/-- A state holding one initialized constant "c" of type `CDecimal`. -/
def stConst : CheckerState :=
  ⟨[⟨VarType.Constant, "c", some DataType.CDecimal, true⟩], [], [],
   Scope.mk ScopeType.Root none [0] [] [] none, []⟩

/-- A state holding one initialized mutable variable "m" of type
`CDecimal`. -/
def stMut : CheckerState :=
  ⟨[⟨VarType.Variable, "m", some DataType.CDecimal, true⟩], [], [],
   Scope.mk ScopeType.Root none [0] [] [] none, []⟩

/-- The expression `c` (reference to the constant of `stConst`). -/
def lhsC : Positioned Node := p0 (Node.Value (ValueNode.VariableCall "c"))

/-- The expression `m` (reference to the mutable variable of `stMut`). -/
def lhsM : Positioned Node := p0 (Node.Value (ValueNode.VariableCall "m"))

/-- The literal `5`. -/
def lit5 : Positioned Node := p0 (Node.Value (ValueNode.Decimal "5"))

/-- The literal `3`. -/
def lit3 : Positioned Node := p0 (Node.Value (ValueNode.Decimal "3"))

/-- A state with a function "g" of two `c_int` parameters returning
`c_int`. -/
def stG : CheckerState :=
  ⟨[], [⟨"g", DataType.Custom "c_int", FunctionType.Function,
     [⟨p0 "p1", p0 "c_int"⟩, ⟨p0 "p2", p0 "c_int"⟩]⟩], [],
   Scope.mk ScopeType.Root none [] [0] [] none, []⟩

/- ------------------------------------------------------------------ -/
/- Theorems                                                            -/
/- ------------------------------------------------------------------ -/

/-- C1: the inference engine is one-sided unification.  (1) An expression
carrying a concrete type yields the expected type exactly when the two are
compatible, and a type-mismatch error otherwise; (2) an expression carrying a
bound variable symbol whose type is unset gets the expected type assigned to
that symbol (a heap update every alias observes) and returns it; (3)–(5)
`infer_and_check2 a b` delegates to `infer_and_check a b.type` when `b` has a
concrete type, else to `infer_and_check b a.type` when `a` has one, and fails
when neither side has one. -/
theorem C1_infer_one_sided :
    (∀ st info expected dt, info.data_type = some dt →
      infer_and_check info expected st =
        (if check_data_type expected dt then Except.ok (expected, st)
         else Except.error (CheckError.typeMismatch dt expected))) ∧
    (∀ st info expected vi v, info.data_type = none →
      info.symbol = some (Symbol.Variable vi) →
      st.vars.get? vi = some v → v.data_type = none →
      infer_and_check info expected st =
        Except.ok (expected,
          { st with vars := st.vars.set vi { v with data_type := some expected } })) ∧
    (∀ st a b dt, b.data_type = some dt →
      infer_and_check2 a b st = infer_and_check a dt st) ∧
    (∀ st a b dt, b.data_type = none → a.data_type = some dt →
      infer_and_check2 a b st = infer_and_check b dt st) ∧
    (∀ st a b, a.data_type = none → b.data_type = none →
      infer_and_check2 a b st = Except.error CheckError.cannotInfer) := by
  refine ⟨?_, ?_, ?_, ?_, ?_⟩
  · intro st info expected dt h
    simp only [infer_and_check, h]
  · intro st info expected vi v h1 h2 h3 h4
    simp only [infer_and_check, h1, h2, h3, h4]
  · intro st a b dt h
    simp only [infer_and_check2, h]
  · intro st a b dt h1 h2
    simp only [infer_and_check2, h1, h2]
  · intro st a b h1 h2
    simp only [infer_and_check2, h1, h2]

/-- Witness for C1 at concrete inputs: a typed literal info against
`CDecimal`, the untyped variable "x" of `stVarX` getting `CDecimal`
assigned, and the three delegation shapes of `infer_and_check2`. -/
theorem C1_infer_one_sided_witness :
    (infer_and_check ⟨some DataType.CDecimal, none⟩ DataType.CDecimal stEmpty =
      (if check_data_type DataType.CDecimal DataType.CDecimal then
        Except.ok (DataType.CDecimal, stEmpty)
       else Except.error (CheckError.typeMismatch DataType.CDecimal DataType.CDecimal))) ∧
    (infer_and_check ⟨none, some (Symbol.Variable 0)⟩ DataType.CDecimal stVarX =
      Except.ok (DataType.CDecimal,
        { stVarX with vars := stVarX.vars.set 0 { varX with data_type := some DataType.CDecimal } })) ∧
    (infer_and_check2 ⟨none, some (Symbol.Variable 0)⟩ ⟨some DataType.CDecimal, none⟩ stVarX =
      infer_and_check ⟨none, some (Symbol.Variable 0)⟩ DataType.CDecimal stVarX) ∧
    (infer_and_check2 ⟨some DataType.CDecimal, none⟩ ⟨none, none⟩ stVarX =
      infer_and_check ⟨none, none⟩ DataType.CDecimal stVarX) ∧
    (infer_and_check2 ⟨none, none⟩ ⟨none, none⟩ stEmpty =
      Except.error CheckError.cannotInfer) :=
  ⟨C1_infer_one_sided.1 stEmpty _ _ DataType.CDecimal rfl,
   C1_infer_one_sided.2.1 stVarX _ _ 0 varX rfl rfl rfl rfl,
   C1_infer_one_sided.2.2.1 stVarX _ _ DataType.CDecimal rfl,
   C1_infer_one_sided.2.2.2.1 stVarX _ _ DataType.CDecimal rfl rfl,
   C1_infer_one_sided.2.2.2.2 stEmpty _ _ rfl rfl⟩

/-- C9: the type-compatibility predicate is symmetric: structural equality,
the numeric-alias whitelist, and the string-alias case are each tried in both
orientations, so swapping the arguments never changes the verdict. -/
theorem C9_compatibility_symmetric :
    ∀ a b : DataType, check_data_type a b = check_data_type b a := by
  intro a b
  by_cases h : a = b
  · subst h; rfl
  · have h2 : ¬ b = a := fun e => h e.symm
    simp only [check_data_type, if_neg h, if_neg h2]
    cases hab : aliasAccept a b <;> cases hba : aliasAccept b a <;> simp [hab, hba]

/-- Helper: a lookup that finds an active override delegates to it and clears
it (variables). -/
theorem Scope.get_variable_override (vars : List VariableSymbol) (s sel : Scope) (name : String)
    (h : s.selected = some sel) :
    s.get_variable vars name = ((sel.get_variable vars name).1, s.withSelected none) := by
  cases s with
  | mk t p vs fs cs selOpt =>
      cases selOpt with
      | none => exact absurd h (by simp [Scope.selected])
      | some s0 =>
          have : s0 = sel := by simpa [Scope.selected] using h
          subst this
          simp [Scope.get_variable, Scope.withSelected]

/-- Helper: a lookup that finds an active override delegates to it and clears
it (functions). -/
theorem Scope.get_function_override (funs : List FunctionSymbol) (s sel : Scope) (name : String)
    (h : s.selected = some sel) :
    s.get_function funs name = ((sel.get_function funs name).1, s.withSelected none) := by
  cases s with
  | mk t p vs fs cs selOpt =>
      cases selOpt with
      | none => exact absurd h (by simp [Scope.selected])
      | some s0 =>
          have : s0 = sel := by simpa [Scope.selected] using h
          subst this
          simp [Scope.get_function, Scope.withSelected]

/-- Helper: a lookup that finds an active override delegates to it and clears
it (classes). -/
theorem Scope.get_class_override (classes : List ClassSymbol) (s sel : Scope) (name : String)
    (h : s.selected = some sel) :
    s.get_class classes name = ((sel.get_class classes name).1, s.withSelected none) := by
  cases s with
  | mk t p vs fs cs selOpt =>
      cases selOpt with
      | none => exact absurd h (by simp [Scope.selected])
      | some s0 =>
          have : s0 = sel := by simpa [Scope.selected] using h
          subst this
          simp [Scope.get_class, Scope.withSelected]

/-- Helper: every variable lookup returns a scope with no active override. -/
theorem Scope.get_variable_clears (vars : List VariableSymbol) (s : Scope) (name : String) :
    (s.get_variable vars name).2.selected = none := by
  cases s with
  | mk t p vs fs cs selOpt =>
      cases selOpt with
      | some s0 => simp [Scope.get_variable, Scope.selected]
      | none =>
          cases p with
          | some par =>
              simp only [Scope.get_variable]
              cases vs.find? (varNamed vars name) <;> simp [Scope.selected]
          | none =>
              simp only [Scope.get_variable]
              cases vs.find? (varNamed vars name) <;> simp [Scope.selected]

/-- Helper: every function lookup returns a scope with no active override. -/
theorem Scope.get_function_clears (funs : List FunctionSymbol) (s : Scope) (name : String) :
    (s.get_function funs name).2.selected = none := by
  cases s with
  | mk t p vs fs cs selOpt =>
      cases selOpt with
      | some s0 => simp [Scope.get_function, Scope.selected]
      | none =>
          cases p with
          | some par =>
              simp only [Scope.get_function]
              cases fs.find? (funNamed funs name) <;> simp [Scope.selected]
          | none =>
              simp only [Scope.get_function]
              cases fs.find? (funNamed funs name) <;> simp [Scope.selected]

/-- Helper: every class lookup returns a scope with no active override. -/
theorem Scope.get_class_clears (classes : List ClassSymbol) (s : Scope) (name : String) :
    (s.get_class classes name).2.selected = none := by
  cases s with
  | mk t p vs fs cs selOpt =>
      cases selOpt with
      | some s0 => simp [Scope.get_class, Scope.selected]
      | none =>
          cases p with
          | some par =>
              simp only [Scope.get_class]
              cases cs.find? (classNamed classes name) <;> simp [Scope.selected]
          | none =>
              simp only [Scope.get_class]
              cases cs.find? (classNamed classes name) <;> simp [Scope.selected]

/-- C5: the override (selected) scope is a one-shot redirect.  When a lookup
(variable, function, or class) finds an active override it delegates entirely
to the override and clears it, hit or miss; and the scope returned by any
lookup has no active override, so a later bare lookup resolves via the normal
chain. -/
theorem C5_override_one_shot :
    (∀ vars (s sel : Scope) name, s.selected = some sel →
      s.get_variable vars name = ((sel.get_variable vars name).1, s.withSelected none)) ∧
    (∀ funs (s sel : Scope) name, s.selected = some sel →
      s.get_function funs name = ((sel.get_function funs name).1, s.withSelected none)) ∧
    (∀ classes (s sel : Scope) name, s.selected = some sel →
      s.get_class classes name = ((sel.get_class classes name).1, s.withSelected none)) ∧
    (∀ vars (s : Scope) name, (s.get_variable vars name).2.selected = none) ∧
    (∀ funs (s : Scope) name, (s.get_function funs name).2.selected = none) ∧
    (∀ classes (s : Scope) name, (s.get_class classes name).2.selected = none) :=
  ⟨fun vars s sel name h => Scope.get_variable_override vars s sel name h,
   fun funs s sel name h => Scope.get_function_override funs s sel name h,
   fun classes s sel name h => Scope.get_class_override classes s sel name h,
   fun vars s name => Scope.get_variable_clears vars s name,
   fun funs s name => Scope.get_function_clears funs s name,
   fun classes s name => Scope.get_class_clears classes s name⟩

/-- Witness for C5: the synthetic scope for class C of the demo state
installed as override on the demo root scope; a lookup of "x" (a field of C)
delegates to the override and clears it, and every lookup leaves no active
override behind. -/
theorem C5_override_one_shot_witness :
    ((Scope.mk ScopeType.Root none [1] [] [0, 1] (some synthC)).get_variable demoVars "x" =
      ((synthC.get_variable demoVars "x").1,
       (Scope.mk ScopeType.Root none [1] [] [0, 1] (some synthC)).withSelected none)) ∧
    ((Scope.mk ScopeType.Root none [] [0] [] (some synthC)).get_function [] "f" =
      ((synthC.get_function [] "f").1,
       (Scope.mk ScopeType.Root none [] [0] [] (some synthC)).withSelected none)) ∧
    ((Scope.mk ScopeType.Root none [1] [] [0, 1] (some synthC)).get_class demoClasses "D" =
      ((synthC.get_class demoClasses "D").1,
       (Scope.mk ScopeType.Root none [1] [] [0, 1] (some synthC)).withSelected none)) ∧
    ((Scope.get_variable demoVars (Scope.mk ScopeType.Root none [1] [] [0, 1] (some synthC)) "x").2.selected = none) ∧
    ((Scope.get_function [] rootScope "f").2.selected = none) ∧
    ((Scope.get_class demoClasses rootScope "D").2.selected = none) :=
  ⟨C5_override_one_shot.1 demoVars _ synthC "x" rfl,
   C5_override_one_shot.2.1 [] _ synthC "f" rfl,
   C5_override_one_shot.2.2.1 demoClasses _ synthC "D" rfl,
   C5_override_one_shot.2.2.2.1 demoVars _ "x",
   C5_override_one_shot.2.2.2.2.1 [] rootScope "f",
   C5_override_one_shot.2.2.2.2.2 demoClasses rootScope "D"⟩

/-- C2 counterexample: in `stFun` the name "f" is resolvable (as a function)
in the current scope chain, yet declaring a *variable* named "f" succeeds —
`check_variable_definition` only consults `get_variable`, so resolvability as
another symbol kind does not trigger the duplicate-declaration error the
claim asserts for every declaration. -/
theorem C2_counterexample :
    (stFun.scope.symbol_exists stFun.vars stFun.funs stFun.classes "f").1 = true ∧
    exceptOk (check_node 5 declF stFun) = true :=
  ⟨rfl, rfl⟩

/-- C2 amended: the duplicate check is per symbol kind for variables and
functions — a variable declaration fails with the duplicate error exactly
when the name resolves as a *variable* somewhere in the chain, a function
declaration when it resolves as a *function*; only a class declaration
rejects a name resolvable as any symbol kind (`symbol_exists`).  All three
checks do look through the whole chain, at any nesting depth. -/
theorem C2_duplicate_check_per_kind :
    (∀ fuel pos vt name dt val st i s2,
      st.scope.get_variable st.vars name.data = (some i, s2) →
      check_variable_definition (fuel+1) pos vt name dt val st =
        Except.error CheckError.duplicateVariable) ∧
    (∀ fuel pos name rt ps body ctor st i s2,
      st.scope.get_function st.funs name.data = (some i, s2) →
      check_function_definition (fuel+1) pos name rt ps body ctor st =
        Except.error CheckError.duplicateFunction) ∧
    (∀ fuel pos name body st s2,
      st.scope.symbol_exists st.vars st.funs st.classes name.data = (true, s2) →
      check_class_definition (fuel+1) pos name body st =
        Except.error CheckError.symbolExists) := by
  refine ⟨?_, ?_, ?_⟩
  · intro fuel pos vt name dt val st i s2 h
    simp only [check_variable_definition, h, Option.isSome_some, if_true]
  · intro fuel pos name rt ps body ctor st i s2 h
    simp only [check_function_definition, h, Option.isSome_some, if_true]
  · intro fuel pos name body st s2 h
    simp only [check_class_definition, h, if_true]

/-- Witness for C2 amended: a duplicate variable "x" in `stVarX`, a duplicate
function "f" in `stFun`, and a class named "f" in `stFun` (resolvable as a
function), each rejected. -/
theorem C2_duplicate_check_per_kind_witness :
    check_variable_definition 1 (p0 ()) (p0 VarType.Variable) (p0 "x") none none stVarX =
      Except.error CheckError.duplicateVariable ∧
    check_function_definition 1 (p0 ()) (p0 "f") none [] none false stFun =
      Except.error CheckError.duplicateFunction ∧
    check_class_definition 1 (p0 ()) (p0 "f") [] stFun =
      Except.error CheckError.symbolExists :=
  ⟨C2_duplicate_check_per_kind.1 0 (p0 ()) (p0 VarType.Variable) (p0 "x") none none stVarX 0
      (Scope.mk ScopeType.Root none [0] [] [] none) rfl,
   C2_duplicate_check_per_kind.2.1 0 (p0 ()) (p0 "f") none [] none false stFun 0
      (Scope.mk ScopeType.Root none [] [0] [] none) rfl,
   C2_duplicate_check_per_kind.2.2 0 (p0 ()) (p0 "f") [] stFun
      (Scope.mk ScopeType.Root none [] [0] [] none) rfl⟩

/-- C4 counterexample: a variable declaration with neither an initializer nor
a type annotation does *not* fail — it is accepted, the symbol is registered
with an unset type and initialized = false, and the rewritten declaration
node's type field is `none` (still optional), contradicting both halves of
the claim. -/
theorem C4_counterexample :
    check_node 2 declX stEmpty =
      Except.ok ((NodeInfo.mk (some DataType.Void) none,
        [p0 (Node.VariableDefinition (p0 VarType.Variable) (p0 "x") none none)]),
        ⟨[varX], [], [], Scope.mk ScopeType.Root none [0] [] [] none, []⟩) := rfl

/-- C4 amended: a variable declaration with neither initializer nor type
annotation is accepted whenever the name is fresh: the variable symbol is
registered with an unset (inferable-later) type and initialized = false, and
the rewritten node's type field remains `none` — so rewritten declarations do
not always carry a concrete type. -/
theorem C4_no_init_no_annot_accepted :
    ∀ fuel pos vt name st s2,
      st.scope.get_variable st.vars name.data = (none, s2) →
      check_variable_definition (fuel+1) pos vt name none none st =
        Except.ok ((NodeInfo.mk (some DataType.Void) none,
          [pos.convert (Node.VariableDefinition vt name none none)]),
          { st with vars := st.vars ++ [VariableSymbol.mk vt.data name.data none false],
                    scope := s2.pushVariable st.vars.length }) := by
  intro fuel pos vt name st s2 h
  simp only [check_variable_definition, h, Option.isSome_none, Bool.false_eq_true, if_false,
    finish_variable_definition, Option.isSome_none]

/-- Witness for C4 amended at the empty state. -/
theorem C4_no_init_no_annot_accepted_witness :
    check_variable_definition 1 (p0 ()) (p0 VarType.Variable) (p0 "x") none none stEmpty =
      Except.ok ((NodeInfo.mk (some DataType.Void) none,
        [(p0 ()).convert (Node.VariableDefinition (p0 VarType.Variable) (p0 "x") none none)]),
        { stEmpty with vars := stEmpty.vars ++ [VariableSymbol.mk VarType.Variable "x" none false],
                       scope := rootScope.pushVariable stEmpty.vars.length }) :=
  C4_no_init_no_annot_accepted 0 (p0 ()) (p0 VarType.Variable) (p0 "x") stEmpty rootScope rfl

/-- C3 counterexample: in `demoSt`, the rhs name "D" is neither a field nor a
method of class C (the lookups on the synthetic scope `synthC` miss), yet
checking `a.D` succeeds — after the override is consumed by the variable
lookup, the fallback class lookup of `check_value` walks the normal enclosing
chain and finds the outer class D instead of failing with an
unresolved-symbol error. -/
theorem C3_counterexample :
    (synthC.get_variable demoVars "D").1 = none ∧
    (synthC.get_function [] "D").1 = none ∧
    exceptOk (check_node 5 accessNode demoSt) = true :=
  ⟨rfl, rfl, rfl⟩

set_option maxRecDepth 4000 in
/-- C3 amended: with the synthetic class scope installed as override, a bare
rhs identifier is first looked up as a variable *only* among the class's
fields (the override delegates and is cleared); when that misses, a second,
class lookup proceeds through the normal, override-free chain, so an rhs
naming any visible class still resolves; the unresolved-symbol failure
happens exactly when both lookups miss. -/
theorem C3_member_rhs_resolution :
    ∀ st (sel : Scope) name (vnode : Positioned ValueNode),
      st.scope.selected = some sel →
      vnode.data = ValueNode.VariableCall name →
      (∀ vi v, (sel.get_variable st.vars name).1 = some vi → st.vars.get? vi = some v →
        check_value vnode st = Except.ok ((NodeInfo.mk v.data_type (some (Symbol.Variable vi)),
          [vnode.convert (Node.Value (ValueNode.VariableCall name))]),
          { st with scope := st.scope.withSelected none })) ∧
      ((sel.get_variable st.vars name).1 = none →
        ∀ ci s3, (st.scope.withSelected none).get_class st.classes name = (some ci, s3) →
          check_value vnode st =
            Except.ok ((NodeInfo.mk (some (DataType.Custom name)) (some (Symbol.Class ci)),
              [vnode.convert (Node.Value (ValueNode.VariableCall name))]),
              { st with scope := s3 })) ∧
      ((sel.get_variable st.vars name).1 = none →
        ∀ s3, (st.scope.withSelected none).get_class st.classes name = (none, s3) →
        check_value vnode st = Except.error (CheckError.variableNotFound name)) := by
  intro st sel name vnode hsel hdata
  have hv := Scope.get_variable_override st.vars st.scope sel name hsel
  refine ⟨?_, ?_, ?_⟩
  · intro vi v h1 h2
    simp only [check_value, hdata]
    simp only [hv]
    simp only [h1]
    simp only [h2]
  · intro h1 ci s3 h2
    simp only [check_value, hdata]
    simp only [hv]
    simp only [h1]
    simp only [h2]
  · intro h1 s3 h2
    simp only [check_value, hdata]
    simp only [hv]
    simp only [h1]
    simp only [h2]

/-- Witness for C3 amended: the demo state with the synthetic scope for C
installed as override; the field "x" resolves through the override, the
non-member name "D" resolves as the enclosing-scope class D, and a name
matching nothing fails with the unresolved-symbol error. -/
theorem C3_member_rhs_resolution_witness :
    check_value (p0 (ValueNode.VariableCall "x")) demoStSel =
      Except.ok ((NodeInfo.mk (some DataType.CDecimal) (some (Symbol.Variable 0)),
        [(p0 (ValueNode.VariableCall "x")).convert (Node.Value (ValueNode.VariableCall "x"))]),
        { demoStSel with scope := demoStSel.scope.withSelected none }) ∧
    check_value (p0 (ValueNode.VariableCall "D")) demoStSel =
      Except.ok ((NodeInfo.mk (some (DataType.Custom "D")) (some (Symbol.Class 1)),
        [(p0 (ValueNode.VariableCall "D")).convert (Node.Value (ValueNode.VariableCall "D"))]),
        { demoStSel with scope := Scope.mk ScopeType.Root none [1] [] [0, 1] none }) ∧
    check_value (p0 (ValueNode.VariableCall "zz")) demoStSel =
      Except.error (CheckError.variableNotFound "zz") :=
  ⟨(C3_member_rhs_resolution demoStSel synthC "x" (p0 (ValueNode.VariableCall "x")) rfl rfl).1
      0 ⟨VarType.Variable, "x", some DataType.CDecimal, true⟩ rfl rfl,
   (C3_member_rhs_resolution demoStSel synthC "D" (p0 (ValueNode.VariableCall "D")) rfl rfl).2.1
      rfl 1 (Scope.mk ScopeType.Root none [1] [] [0, 1] none) rfl,
   (C3_member_rhs_resolution demoStSel synthC "zz" (p0 (ValueNode.VariableCall "zz")) rfl rfl).2.2
      rfl (Scope.mk ScopeType.Root none [1] [] [0, 1] none) rfl⟩

/-- C6: assigning to a constant variable whose initialized flag is already
true fails with the invalid-assignment error (the run aborts before any
mutation); on any other variable target (mutable, or a constant not yet
initialized) the checker first sets the variable's initialized flag to true
and then proceeds to unify the two sides, succeeding exactly when
unification does. -/
theorem C6_constant_assignment :
    ∀ fuel pos lhs op rhs st lhsInfo lhsAst st1 rhsInfo rhsAst st2 vi v,
      check_node fuel lhs st = Except.ok ((lhsInfo, lhsAst), st1) →
      check_node fuel rhs st1 = Except.ok ((rhsInfo, rhsAst), st2) →
      lhsInfo.symbol = some (Symbol.Variable vi) →
      st2.vars.get? vi = some v →
      ((v.var_type = VarType.Constant ∧ v.initialized = true →
        check_assignment (fuel+1) pos lhs op rhs st =
          Except.error CheckError.cannotAssignToConstant) ∧
       (¬(v.var_type = VarType.Constant ∧ v.initialized = true) →
        check_assignment (fuel+1) pos lhs op rhs st =
          (match infer_and_check2 lhsInfo rhsInfo
              { st2 with vars := st2.vars.set vi { v with initialized := true } } with
           | Except.error e => Except.error e
           | Except.ok (data_type, st4) =>
              match lhsAst, rhsAst with
              | l :: _, r :: _ =>
                  Except.ok ((NodeInfo.mk (some data_type) none,
                    [pos.convert (Node.BinaryOperation l op r)]), st4)
              | _, _ => Except.error CheckError.invalidState))) := by
  intro fuel pos lhs op rhs st lhsInfo lhsAst st1 rhsInfo rhsAst st2 vi v h1 h2 h3 h4
  constructor
  · intro hc
    simp only [check_assignment, h1, h2, h3, h4]
    rw [if_pos hc]
  · intro hc
    simp only [check_assignment, h1, h2, h3, h4]
    rw [if_neg hc]

/-- Witness for C6: `c = 5` on the initialized constant of `stConst` fails
with the invalid-assignment error; `m = 5` on the mutable variable of `stMut`
reaches unification with the initialized flag set. -/
theorem C6_constant_assignment_witness :
    check_assignment 2 (p0 ()) lhsC (p0 Operator.Assignment) lit5 stConst =
      Except.error CheckError.cannotAssignToConstant ∧
    check_assignment 2 (p0 ()) lhsM (p0 Operator.Assignment) lit5 stMut =
      (match infer_and_check2
          (NodeInfo.mk (some DataType.CDecimal) (some (Symbol.Variable 0)))
          (NodeInfo.mk (some DataType.CDecimal) none)
          { stMut with vars := stMut.vars.set 0 (VariableSymbol.mk VarType.Variable "m" (some DataType.CDecimal) true) } with
       | Except.error e => Except.error e
       | Except.ok (data_type, st4) =>
          match [lhsM], [lit5] with
          | l :: _, r :: _ =>
              Except.ok ((NodeInfo.mk (some data_type) none,
                [(p0 ()).convert (Node.BinaryOperation l (p0 Operator.Assignment) r)]), st4)
          | _, _ => Except.error CheckError.invalidState) :=
  ⟨(C6_constant_assignment 1 (p0 ()) lhsC (p0 Operator.Assignment) lit5 stConst
      (NodeInfo.mk (some DataType.CDecimal) (some (Symbol.Variable 0))) [lhsC] stConst
      (NodeInfo.mk (some DataType.CDecimal) none) [lit5] stConst 0
      ⟨VarType.Constant, "c", some DataType.CDecimal, true⟩ rfl rfl rfl rfl).1
      (by exact ⟨rfl, rfl⟩),
   (C6_constant_assignment 1 (p0 ()) lhsM (p0 Operator.Assignment) lit5 stMut
      (NodeInfo.mk (some DataType.CDecimal) (some (Symbol.Variable 0))) [lhsM] stMut
      (NodeInfo.mk (some DataType.CDecimal) none) [lit5] stMut 0
      ⟨VarType.Variable, "m", some DataType.CDecimal, true⟩ rfl rfl rfl rfl).2
      (by decide)⟩

/-- C10: an assignment whose checked left-hand side carries no bound symbol
skips the assignment-target validation entirely — no invalid-assignment
error is possible — and goes straight to unifying the two sides' types,
succeeding exactly when unification does. -/
theorem C10_symbolless_assignment_unchecked :
    ∀ fuel pos lhs op rhs st lhsInfo lhsAst st1 rhsInfo rhsAst st2,
      check_node fuel lhs st = Except.ok ((lhsInfo, lhsAst), st1) →
      check_node fuel rhs st1 = Except.ok ((rhsInfo, rhsAst), st2) →
      lhsInfo.symbol = none →
      check_assignment (fuel+1) pos lhs op rhs st =
        (match infer_and_check2 lhsInfo rhsInfo st2 with
         | Except.error e => Except.error e
         | Except.ok (data_type, st3) =>
            match lhsAst, rhsAst with
            | l :: _, r :: _ =>
                Except.ok ((NodeInfo.mk (some data_type) none,
                  [pos.convert (Node.BinaryOperation l op r)]), st3)
            | _, _ => Except.error CheckError.invalidState) := by
  intro fuel pos lhs op rhs st lhsInfo lhsAst st1 rhsInfo rhsAst st2 h1 h2 h3
  simp only [check_assignment, h1, h2, h3]

/-- Witness for C10: the assignment `5 = 3` (a literal target, hence no bound
symbol) raises no invalid-assignment-target error and reduces to the
unification of the two literal types — which succeeds. -/
theorem C10_symbolless_assignment_unchecked_witness :
    check_assignment 2 (p0 ()) lit5 (p0 Operator.Assignment) lit3 stEmpty =
      (match infer_and_check2 (NodeInfo.mk (some DataType.CDecimal) none)
          (NodeInfo.mk (some DataType.CDecimal) none) stEmpty with
       | Except.error e => Except.error e
       | Except.ok (data_type, st3) =>
          match [lit5], [lit3] with
          | l :: _, r :: _ =>
              Except.ok ((NodeInfo.mk (some data_type) none,
                [(p0 ()).convert (Node.BinaryOperation l (p0 Operator.Assignment) r)]), st3)
          | _, _ => Except.error CheckError.invalidState) ∧
    exceptOk (check_assignment 2 (p0 ()) lit5 (p0 Operator.Assignment) lit3 stEmpty) = true :=
  ⟨C10_symbolless_assignment_unchecked 1 (p0 ()) lit5 (p0 Operator.Assignment) lit3 stEmpty
      (NodeInfo.mk (some DataType.CDecimal) none) [lit5] stEmpty
      (NodeInfo.mk (some DataType.CDecimal) none) [lit3] stEmpty rfl rfl rfl,
   rfl⟩

/-- Helper: a successful pairwise argument pass consumed exactly as many
supplied arguments as declared parameters. -/
theorem check_call_args_ok_length :
    ∀ (ds : List FunctionDefinitionParameter) fuel (gs : List (FunctionCallParam Node)) st res st1,
      check_call_args fuel ds gs st = Except.ok (res, st1) → gs.length = ds.length := by
  intro ds
  induction ds with
  | nil =>
      intro fuel gs st res st1 h
      cases fuel with
      | zero => simp [check_call_args] at h
      | succ f =>
          by_cases hg : gs.length > 0
          · simp [check_call_args, hg] at h
          · simp only [List.length_nil]; omega
  | cons d ds ih =>
      intro fuel gs st res st1 h
      cases fuel with
      | zero => simp [check_call_args] at h
      | succ f =>
          cases gs with
          | nil => simp [check_call_args] at h
          | cons g gs =>
              simp only [check_call_args] at h
              cases hcn : check_node f g.value st with
              | error e => simp [hcn] at h
              | ok pr =>
                  obtain ⟨⟨param_info, param_ast⟩, s1⟩ := pr
                  simp only [hcn] at h
                  cases hic : infer_and_check param_info (DataType.Custom d.data_type.data) s1 with
                  | error e => simp [hic] at h
                  | ok pr2 =>
                      obtain ⟨dt, s2⟩ := pr2
                      simp only [hic] at h
                      cases param_ast with
                      | nil => simp at h
                      | cons a rest =>
                          cases hrec : check_call_args f ds gs s2 with
                          | error e => simp [hrec] at h
                          | ok pr3 =>
                              obtain ⟨r2, s3⟩ := pr3
                              have := ih f gs s2 r2 s3 hrec
                              simp [this]

/-- C7: function-call arguments are checked pairwise by position against the
declared parameters, each unified with the declared parameter type.
Exhausting the supplied arguments while declared parameters remain fails
with the too-few error inside the pairwise pass; leftover supplied arguments
after all declared parameters are consumed fail with the separate too-many
error after the pass; a successful pass consumed exactly as many arguments as
parameters; and a resolved call whose pairwise pass succeeds yields the
function's declared return type. -/
theorem C7_call_arity :
    (∀ fuel (d : FunctionDefinitionParameter) ds st,
      check_call_args (fuel+1) (d :: ds) [] st = Except.error CheckError.notEnoughParams) ∧
    (∀ fuel (g : FunctionCallParam Node) gs st,
      check_call_args (fuel+1) [] (g :: gs) st = Except.error CheckError.tooManyParams) ∧
    (∀ fuel st, check_call_args (fuel+1)
      ([] : List FunctionDefinitionParameter) ([] : List (FunctionCallParam Node)) st =
        Except.ok ([], st)) ∧
    (∀ fuel d ds g gs st,
      check_call_args (fuel+1) (d :: ds) (g :: gs) st =
        (match check_node fuel g.value st with
         | Except.error e => Except.error e
         | Except.ok ((param_info, param_ast), st1) =>
            match infer_and_check param_info (DataType.Custom d.data_type.data) st1 with
            | Except.error e => Except.error e
            | Except.ok (_, st2) =>
               match param_ast with
               | [] => Except.error CheckError.invalidState
               | a :: _ =>
                  match check_call_args fuel ds gs st2 with
                  | Except.error e => Except.error e
                  | Except.ok (rest, st3) =>
                      Except.ok (FunctionCallParam.mk a :: rest, st3))) ∧
    (∀ ds fuel gs st res st1, check_call_args fuel ds gs st = Except.ok (res, st1) →
      List.length gs = List.length ds) ∧
    (∀ fuel pos name given st fi s2 fsym res st1,
      st.scope.get_function st.funs name.data = (some fi, s2) →
      st.funs.get? fi = some fsym →
      check_call_args fuel fsym.params given { st with scope := s2 } = Except.ok (res, st1) →
      check_function_call (fuel+1) pos name given st =
        Except.ok ((NodeInfo.mk (some fsym.data_type) none,
          [pos.convert (Node.FunctionCall name res)]), st1)) := by
  refine ⟨?_, ?_, ?_, ?_, check_call_args_ok_length, ?_⟩
  · intro fuel d ds st; rfl
  · intro fuel g gs st
    simp [check_call_args]
  · intro fuel st; rfl
  · intro fuel d ds g gs st; rfl
  · intro fuel pos name given st fi s2 fsym res st1 h1 h2 h3
    simp only [check_function_call, h1, h2, h3]

/-- Witness for C7: the too-few, too-many, empty-success and pairwise shapes
at concrete arguments, the length fact on a concrete successful pass, and the
call `g(5, 3)` against `stG` yielding the declared return type `c_int`. -/
theorem C7_call_arity_witness :
    check_call_args 1 [⟨p0 "p1", p0 "c_int"⟩] [] stEmpty =
      Except.error CheckError.notEnoughParams ∧
    check_call_args 1 [] [FunctionCallParam.mk lit5] stEmpty =
      Except.error CheckError.tooManyParams ∧
    check_call_args 1 [] [] stEmpty = Except.ok ([], stEmpty) ∧
    check_call_args 2 [⟨p0 "p1", p0 "c_int"⟩] [FunctionCallParam.mk lit5] stEmpty =
      (match check_node 1 (FunctionCallParam.mk lit5).value stEmpty with
       | Except.error e => Except.error e
       | Except.ok ((param_info, param_ast), st1) =>
          match infer_and_check param_info (DataType.Custom "c_int") st1 with
          | Except.error e => Except.error e
          | Except.ok (_, st2) =>
             match param_ast with
             | [] => Except.error CheckError.invalidState
             | a :: _ =>
                match check_call_args 1 [] [] st2 with
                | Except.error e => Except.error e
                | Except.ok (rest, st3) =>
                    Except.ok (FunctionCallParam.mk a :: rest, st3)) ∧
    List.length [FunctionCallParam.mk lit5] = List.length [(⟨p0 "p1", p0 "c_int"⟩ : FunctionDefinitionParameter)] ∧
    check_function_call 4 (p0 ()) (p0 "g")
      [FunctionCallParam.mk lit5, FunctionCallParam.mk lit3] stG =
      Except.ok ((NodeInfo.mk (some (DataType.Custom "c_int")) none,
        [(p0 ()).convert (Node.FunctionCall (p0 "g")
          [FunctionCallParam.mk lit5, FunctionCallParam.mk lit3])]), stG) :=
  ⟨C7_call_arity.1 0 ⟨p0 "p1", p0 "c_int"⟩ [] stEmpty,
   C7_call_arity.2.1 0 (FunctionCallParam.mk lit5) [] stEmpty,
   C7_call_arity.2.2.1 0 stEmpty,
   C7_call_arity.2.2.2.1 1 ⟨p0 "p1", p0 "c_int"⟩ [] (FunctionCallParam.mk lit5) [] stEmpty,
   C7_call_arity.2.2.2.2.1 [⟨p0 "p1", p0 "c_int"⟩] 2 [FunctionCallParam.mk lit5] stEmpty
     [FunctionCallParam.mk lit5] stEmpty rfl,
   C7_call_arity.2.2.2.2.2 3 (p0 ()) (p0 "g")
     [FunctionCallParam.mk lit5, FunctionCallParam.mk lit3] stG 0
     (Scope.mk ScopeType.Root none [] [0] [] none)
     ⟨"g", DataType.Custom "c_int", FunctionType.Function,
       [⟨p0 "p1", p0 "c_int"⟩, ⟨p0 "p2", p0 "c_int"⟩]⟩
     [FunctionCallParam.mk lit5, FunctionCallParam.mk lit3] stG rfl rfl rfl⟩

/-- Helper: the empty and singleton explicit emissions used below. -/
theorem noInclude_nil : noInclude [] := by
  intro q hq
  cases hq

/-- Helper: `check_value` never emits an include node. -/
theorem check_value_no_include (vnode : Positioned ValueNode) (st : CheckerState) (r)
    (h : check_value vnode st = Except.ok r) : noInclude r.1.2 := by
  simp only [check_value] at h
  repeat' split at h
  all_goals first
    | (subst h; simp [noInclude, Positioned.convert])
    | (cases h; simp [noInclude, Positioned.convert])
    | simp at h

/-- Helper: `check_include` emits no node at all. -/
theorem check_include_no_include (pos : Positioned Unit) (path : Positioned String)
    (st : CheckerState) (r) (h : check_include pos path st = Except.ok r) :
    noInclude r.1.2 := by
  simp only [check_include] at h
  cases h
  exact noInclude_nil

/-- Helper: `finish_variable_definition` emits exactly one variable
definition node. -/
theorem finish_variable_definition_no_include (pos vt name value ft st r)
    (h : finish_variable_definition pos vt name value ft st = Except.ok r) :
    noInclude r.1.2 := by
  simp only [finish_variable_definition] at h
  repeat' split at h
  all_goals first
    | (subst h; simp [noInclude, Positioned.convert])
    | (cases h; simp [noInclude, Positioned.convert])
    | simp at h

/-- Helper: `finish_function_definition` emits exactly one function
definition node. -/
theorem finish_function_definition_no_include (pos name dt params new_body ctor st r)
    (h : finish_function_definition pos name dt params new_body ctor st = Except.ok r) :
    noInclude r.1.2 := by
  simp only [finish_function_definition] at h
  repeat' split at h
  all_goals first
    | (subst h; simp [noInclude, Positioned.convert])
    | (cases h; simp [noInclude, Positioned.convert])
    | simp at h

/-- Helper: `check_assignment` never emits an include node. -/
theorem check_assignment_no_include (fuel pos lhs op rhs st r)
    (h : check_assignment fuel pos lhs op rhs st = Except.ok r) : noInclude r.1.2 := by
  cases fuel with
  | zero => simp [check_assignment] at h
  | succ f =>
      simp only [check_assignment] at h
      repeat' split at h
      all_goals first
        | (subst h; simp [noInclude, Positioned.convert])
        | (cases h; simp [noInclude, Positioned.convert])
        | simp at h

/-- Helper: `check_member_access` never emits an include node. -/
theorem check_member_access_no_include (fuel pos lhs op rhs st r)
    (h : check_member_access fuel pos lhs op rhs st = Except.ok r) : noInclude r.1.2 := by
  cases fuel with
  | zero => simp [check_member_access] at h
  | succ f =>
      simp only [check_member_access] at h
      repeat' split at h
      all_goals first
        | (subst h; simp [noInclude, Positioned.convert])
        | (cases h; simp [noInclude, Positioned.convert])
        | simp at h

/-- Helper: `check_binary_operation` never emits an include node. -/
theorem check_binary_operation_no_include (fuel pos lhs op rhs st r)
    (h : check_binary_operation fuel pos lhs op rhs st = Except.ok r) : noInclude r.1.2 := by
  cases fuel with
  | zero => simp [check_binary_operation] at h
  | succ f =>
      simp only [check_binary_operation] at h
      split at h
      all_goals first
        | simp at h
        | exact check_member_access_no_include _ _ _ _ _ _ _ h
        | exact check_assignment_no_include _ _ _ _ _ _ _ h

/-- Helper: `check_variable_definition` never emits an include node. -/
theorem check_variable_definition_no_include (fuel pos vt name dt value st r)
    (h : check_variable_definition fuel pos vt name dt value st = Except.ok r) :
    noInclude r.1.2 := by
  cases fuel with
  | zero => simp [check_variable_definition] at h
  | succ f =>
      simp only [check_variable_definition] at h
      repeat' split at h
      all_goals first
        | (exact finish_variable_definition_no_include _ _ _ _ _ _ _ h)
        | simp at h

/-- Helper: `check_function_definition` never emits an include node. -/
theorem check_function_definition_no_include (fuel pos name rt params body ctor st r)
    (h : check_function_definition fuel pos name rt params body ctor st = Except.ok r) :
    noInclude r.1.2 := by
  cases fuel with
  | zero => simp [check_function_definition] at h
  | succ f =>
      simp only [check_function_definition] at h
      repeat' split at h
      all_goals first
        | (exact finish_function_definition_no_include _ _ _ _ _ _ _ _ h)
        | simp at h

/-- Helper: `check_return` never emits an include node. -/
theorem check_return_no_include (fuel pos value st r)
    (h : check_return fuel pos value st = Except.ok r) : noInclude r.1.2 := by
  cases fuel with
  | zero => simp [check_return] at h
  | succ f =>
      simp only [check_return] at h
      repeat' split at h
      all_goals first
        | (subst h; simp [noInclude, Positioned.convert])
        | (cases h; simp [noInclude, Positioned.convert])
        | simp at h

/-- Helper: `check_function_call` never emits an include node. -/
theorem check_function_call_no_include (fuel pos name params st r)
    (h : check_function_call fuel pos name params st = Except.ok r) : noInclude r.1.2 := by
  cases fuel with
  | zero => simp [check_function_call] at h
  | succ f =>
      simp only [check_function_call] at h
      repeat' split at h
      all_goals first
        | (subst h; simp [noInclude, Positioned.convert])
        | (cases h; simp [noInclude, Positioned.convert])
        | simp at h

/-- Helper: `check_class_definition` never emits an include node. -/
theorem check_class_definition_no_include (fuel pos name body st r)
    (h : check_class_definition fuel pos name body st = Except.ok r) : noInclude r.1.2 := by
  cases fuel with
  | zero => simp [check_class_definition] at h
  | succ f =>
      simp only [check_class_definition] at h
      repeat' split at h
      all_goals first
        | (subst h; simp [noInclude, Positioned.convert])
        | (cases h; simp [noInclude, Positioned.convert])
        | simp at h

/-- Helper: `check_node` never emits an include node inline (the include
checker itself emits nothing, and every other checker emits nodes of its own
kind). -/
theorem check_node_no_include (fuel node st r)
    (h : check_node fuel node st = Except.ok r) : noInclude r.1.2 := by
  cases fuel with
  | zero => simp [check_node] at h
  | succ f =>
      simp only [check_node] at h
      split at h
      all_goals first
        | exact check_value_no_include _ _ _ h
        | exact check_binary_operation_no_include _ _ _ _ _ _ _ h
        | exact check_variable_definition_no_include _ _ _ _ _ _ _ _ h
        | exact check_function_definition_no_include _ _ _ _ _ _ _ _ _ h
        | exact check_return_no_include _ _ _ _ _ h
        | exact check_function_call_no_include _ _ _ _ _ _ h
        | exact check_include_no_include _ _ _ _ h
        | exact check_class_definition_no_include _ _ _ _ _ _ h

/-- Helper: the driver loop's rewritten output contains no include node. -/
theorem check_all_no_include :
    ∀ (ast : List (Positioned Node)) fuel st res st1,
      check_all fuel ast st = Except.ok (res, st1) → noInclude res := by
  intro ast
  induction ast with
  | nil =>
      intro fuel st res st1 h
      simp only [check_all] at h
      cases h
      exact noInclude_nil
  | cons n ns ih =>
      intro fuel st res st1 h
      simp only [check_all] at h
      cases hcn : check_node fuel n st with
      | error e => simp [hcn] at h
      | ok pr =>
          obtain ⟨⟨info, node_ast⟩, s1⟩ := pr
          simp only [hcn] at h
          cases hca : check_all fuel ns s1 with
          | error e => simp [hca] at h
          | ok pr2 =>
              obtain ⟨tail, s2⟩ := pr2
              simp only [hca] at h
              cases h
              intro q hq s hcontra
              rcases List.mem_append.mp hq with hql | hqr
              · exact check_node_no_include fuel n st ⟨⟨info, node_ast⟩, s1⟩ hcn q hql s hcontra
              · exact ih fuel s1 tail _ hca q hqr s hcontra

/-- C8: include directives are hoisted.  Structurally, every successful run
of the driver produces the collected include directives, re-emitted as nodes
from the ordered side-list, prepended to the rewritten non-include sequence,
which contains no include node (they are never emitted inline); and the
spec's own example `[A; include "x"; B; include "y"]` rewrites to
`[include "x"; include "y"; A'; B']`, preserving the relative order of the
includes and of A before B. -/
theorem C8_includes_hoisted :
    (∀ fuel ast st out st1, Checker.check fuel ast st = Except.ok (out, st1) →
      ∃ res, check_all fuel ast st = Except.ok (res, st1) ∧
        out = (st1.includes.map fun pp => pp.1.convert (Node.Include pp.2)) ++ res ∧
        noInclude res) ∧
    Checker.check 5 [nodeA, incX, nodeB, incY] stEmpty = Except.ok (hoistOut, stHoist) := by
  constructor
  · intro fuel ast st out st1 h
    simp only [Checker.check] at h
    cases hca : check_all fuel ast st with
    | error e => simp [hca] at h
    | ok pr =>
        obtain ⟨res, s1⟩ := pr
        simp only [hca] at h
        cases h
        exact ⟨res, rfl, rfl, check_all_no_include ast fuel st res _ hca⟩
  · rfl

/-- Witness for C8: the structural half applied to the example run itself,
with its hypothesis discharged by the concrete example equation. -/
theorem C8_includes_hoisted_witness :
    ∃ res, check_all 5 [nodeA, incX, nodeB, incY] stEmpty = Except.ok (res, stHoist) ∧
      hoistOut = (stHoist.includes.map fun pp => pp.1.convert (Node.Include pp.2)) ++ res ∧
      noInclude res :=
  C8_includes_hoisted.1 5 [nodeA, incX, nodeB, incY] stEmpty hoistOut stHoist
    C8_includes_hoisted.2

end Apla
